import Mathlib

/-!
Verification of the email-verifier web application's core logic.

The repository's own logic is the `verifyEmail` function in `main.go`; it
delegates parsing and network verification to an external library
(`ParseAddress` / `Verify`).  We embed `verifyEmail` parameterized over those
two operations, so that "no call to `Verify` is issued on this path" becomes
"the result does not depend on the `verify` argument".  The external
operations themselves are modelled from the specification where claims are
about them.
-/

/-- The parsed address returned by the library's `ParseAddress`
(`Syntax` in the Go library): a local part (`Username`), a `Domain`,
and a `Valid` flag. -/
structure Address where
  username : String := ""
  domain : String := ""
  valid : Bool := false
deriving Repr, DecidableEq

/-- SMTP probe details of the library's verification result
(`host_exists`, `full_inbox`, `catch_all`, `deliverable`, `disabled`). -/
structure SMTPDetails where
  hostExists : Bool := false
  fullInbox : Bool := false
  catchAll : Bool := false
  deliverable : Bool := false
  disabled : Bool := false
deriving Repr, DecidableEq

/-- The library's verification result as consumed by `verifyEmail`:
`Reachable` (a string among "yes"/"no"/"unknown"), the classifier booleans,
the typo `Suggestion`, and optional SMTP probe details. -/
structure VerificationResult where
  reachable : String := ""
  disposable : Bool := false
  roleAccount : Bool := false
  free : Bool := false
  hasMxRecords : Bool := false
  suggestion : String := ""
  smtp : Option SMTPDetails := none
deriving Repr, DecidableEq

/-- The application's `SMTPInfo` struct from `main.go`. -/
structure SMTPInfo where
  hostExists : Bool := false
  fullInbox : Bool := false
  catchAll : Bool := false
  deliverable : Bool := false
  disabled : Bool := false
deriving Repr, DecidableEq

/-- The application's `EmailResult` struct from `main.go`.  Field defaults are
the Go zero values, matching `result := &EmailResult{Email: email}`. -/
structure EmailResult where
  email : String := ""
  isValid : Bool := false
  reachable : String := ""
  disposable : Bool := false
  roleAccount : Bool := false
  free : Bool := false
  hasMxRecords : Bool := false
  suggestion : String := ""
  error : String := ""
  username : String := ""
  domain : String := ""
  smtpDetails : Option SMTPInfo := none
deriving Repr, DecidableEq

/-- Embedding of `verifyEmail` from `main.go`, parameterized by the external
library's `ParseAddress` (`parse`) and `Verify` (`verify`) operations.
`Verify`'s Go signature `(*Result, error)` is rendered as
`Except String VerificationResult`. -/
def verifyEmail (parse : String → Address)
    (verify : String → Except String VerificationResult)
    (email : String) : EmailResult :=
  let result : EmailResult := { email := email }
  if email = "" then
    { result with error := "Email address is required" }
  else
    let syn := parse email
    let result := { result with username := syn.username, domain := syn.domain,
                                isValid := syn.valid }
    if !syn.valid then
      { result with error := "Invalid email address format" }
    else
      match verify email with
      | Except.error err =>
          { result with error := "Verification failed: " ++ err }
      | Except.ok verifyResult =>
          let result := { result with
            reachable := verifyResult.reachable,
            disposable := verifyResult.disposable,
            roleAccount := verifyResult.roleAccount,
            free := verifyResult.free,
            hasMxRecords := verifyResult.hasMxRecords,
            suggestion := verifyResult.suggestion }
          match verifyResult.smtp with
          | none => result
          | some s =>
              let details : SMTPInfo :=
                { hostExists := s.hostExists, fullInbox := s.fullInbox,
                  catchAll := s.catchAll, deliverable := s.deliverable,
                  disabled := s.disabled }
              { result with smtpDetails := some details }

/-- Splits a character list at its last occurrence of a given character:
returns the characters before and after that occurrence, or `none` when the
character does not occur.  Helper for the spec-modelled address parser. -/
def splitLastAt (sep : Char) : List Char → Option (List Char × List Char)
  | [] => none
  | c :: cs =>
    match splitLastAt sep cs with
    | some (l, r) => some (c :: l, r)
    | none => if c = sep then some ([], cs) else none

/-- Modelled from the spec: local-part validity for the external library's
address parser (not part of this repository).  The local part must be
non-empty, and — since the split is at the last "@" — a local part still
containing "@" means the raw input had multiple "@", which is rejected. -/
def validLocal (l : List Char) : Bool :=
  !l.isEmpty && !l.contains '@'

/-- Modelled from the spec: domain validity for the external library's
address parser (not part of this repository).  A bracketed literal is
accepted; otherwise the domain must be non-empty, contain at least one ".",
and not begin or end with ".". -/
def validDomain (d : List Char) : Bool :=
  (d.head? = some '[' && d.getLast? = some ']') ||
  (!d.isEmpty && d.contains '.' && !(d.head? = some '.') && !(d.getLast? = some '.'))

/-- Modelled from the spec: the external library's `ParseAddress`, which is
not part of this repository (only its callers and tests are).  It splits the
raw string on the last "@", records the two parts as `Username` and `Domain`,
and sets `Valid` per the local-part and domain rules; it is a total function
(never throws), and malformed input yields `valid = false`. -/
def ParseAddress (raw : String) : Address :=
  match splitLastAt '@' raw.data with
  | none => { username := "", domain := "", valid := false }
  | some (l, d) =>
      { username := String.mk l, domain := String.mk d,
        valid := validLocal l && validDomain d }

/-- Modelled from the spec: Levenshtein edit distance between character
lists, used by the typo suggester component of the external library. -/
def editDist : List Char → List Char → Nat
  | [], ys => ys.length
  | x :: xs, [] => (x :: xs).length
  | x :: xs, y :: ys =>
    if x = y then editDist xs ys
    else 1 + min (editDist xs (y :: ys)) (min (editDist (x :: xs) ys) (editDist xs ys))
termination_by xs ys => xs.length + ys.length
decreasing_by all_goals (simp [List.length_cons]; try omega)

/-- Curated list of popular domains used by the spec-modelled typo
suggester. -/
def popularDomains : List String :=
  ["gmail.com", "yahoo.com", "outlook.com", "hotmail.com"]

/-- Modelled from the spec: the typo suggester of the external library.
Returns the first popular domain within a small edit distance of the given
domain when the domain is not itself one of them; otherwise the empty string
(Go's zero value, meaning no suggestion). -/
def suggestDomain (d : String) : String :=
  if popularDomains.contains d then ""
  else
    match popularDomains.filter (fun p => editDist d.data p.data ≤ 2) with
    | [] => ""
    | p :: _ => p

/-- Modelled from the spec: a sample in-memory disposable-domain set for the
external library's disposable classifier. -/
def disposableList : List String := ["10minutemail.com", "tempmail.org"]

/-- Modelled from the spec: conventional role-account local parts for the
external library's role classifier. -/
def roleAccountList : List String := ["admin", "support", "info", "noreply"]

/-- Modelled from the spec: known free webmail providers for the external
library's free-provider classifier. -/
def freeProviderList : List String := ["gmail.com", "yahoo.com", "outlook.com"]

/-- Classification of an SMTP `RCPT TO` response, per the spec's prober
design: 250-series acceptance, 550-series permanent rejection, 450-series
temporary failure / full inbox, and 421/greylisting. -/
inductive RcptResponse where
  | accepted
  | permReject
  | tempFail
  | greylist
deriving Repr, DecidableEq

/-- Outcome of an SMTP probe session against a domain's mail exchanger: the
connection either fails (timeout / refusal), or succeeds and yields the
responses to the primary `RCPT TO` and to the second, randomized-local-part
`RCPT TO` used for catch-all detection. -/
inductive SmtpOutcome where
  | connectFailed
  | connected (firstProbe secondProbe : RcptResponse)
deriving Repr, DecidableEq

/-- The network environment a verification runs against: a DNS oracle giving
a domain's MX hosts and A/AAAA addresses (`none` = resolution failure), and
an SMTP oracle giving the probe outcome for a domain. -/
structure Network where
  dns : String → Option (List String × List String)
  smtp : String → SmtpOutcome

/-- Modelled from the spec: the DNS + SMTP + classifier pipeline of the
external library's `Verify` operation, which is not part of this repository
(only its caller `verifyEmail` is), run on an already-parsed address.  DNS
resolution failure is treated as no records; when no MX and no A/AAAA record
exists, `hasMxRecords` is false and no SMTP probe happens; SMTP connection
failure reports `hostExists = false` and reachability "unknown"; a catch-all
domain (second randomized probe also accepted) is downgraded to "unknown"
rather than "yes". -/
def verifyCore (net : Network) (p : Address) : VerificationResult :=
  let dnsAnswer := (net.dns p.domain).getD ([], [])
  let mx := dnsAnswer.1
  let addrs := dnsAnswer.2
  let base : VerificationResult :=
    { reachable := "unknown",
      disposable := disposableList.contains p.domain,
      roleAccount := roleAccountList.contains p.username,
      free := freeProviderList.contains p.domain,
      hasMxRecords := !(mx.isEmpty && addrs.isEmpty),
      suggestion := suggestDomain p.domain,
      smtp := none }
  if mx.isEmpty && addrs.isEmpty then
    base
  else
    match net.smtp p.domain with
    | SmtpOutcome.connectFailed =>
        let details : SMTPDetails :=
          { hostExists := false, fullInbox := false, catchAll := false,
            deliverable := false, disabled := false }
        { base with smtp := some details }
    | SmtpOutcome.connected firstProbe secondProbe =>
        let isCatchAll : Bool := secondProbe = RcptResponse.accepted
        let isDeliverable : Bool := firstProbe = RcptResponse.accepted
        let isFullInbox : Bool := firstProbe = RcptResponse.tempFail
        let reach : String :=
          if isCatchAll then "unknown"
          else if isDeliverable then "yes"
          else if firstProbe = RcptResponse.permReject then "no"
          else "unknown"
        let details : SMTPDetails :=
          { hostExists := true, fullInbox := isFullInbox,
            catchAll := isCatchAll, deliverable := isDeliverable,
            disabled := false }
        { base with reachable := reach, smtp := some details }

/-- Modelled from the spec: the external library's `Verify` entry point.
It errors exactly when parsing fails; otherwise it returns the result of
the DNS/SMTP/classifier pipeline (`verifyCore`). -/
def Verify (net : Network) (raw : String) : Except String VerificationResult :=
  let p := ParseAddress raw
  if !p.valid then Except.error "address syntax error"
  else Except.ok (verifyCore net p)

/-- Conversion from the library's SMTP details to the application's
`SMTPInfo`, matching the field-by-field copy in `verifyEmail`. -/
def toSMTPInfo (s : SMTPDetails) : SMTPInfo :=
  { hostExists := s.hostExists, fullInbox := s.fullInbox,
    catchAll := s.catchAll, deliverable := s.deliverable,
    disabled := s.disabled }

/-- Sample SMTP details used by concrete witnesses. -/
def sampleSmtp : SMTPDetails :=
  { hostExists := true, fullInbox := false, catchAll := false,
    deliverable := true, disabled := false }

/-- Sample library verification result used by concrete witnesses. -/
def sampleResult : VerificationResult :=
  { reachable := "yes", disposable := false, roleAccount := false,
    free := true, hasMxRecords := true, suggestion := "",
    smtp := some sampleSmtp }

/-- A `Verify` oracle that always succeeds with `sampleResult`. -/
def sampleVerifyOk : String → Except String VerificationResult :=
  fun _ => Except.ok sampleResult

/-- A `Verify` oracle that always fails with a connection-refused error. -/
def sampleVerifyErr : String → Except String VerificationResult :=
  fun _ => Except.error "dial tcp 93.184.216.34:25: connect: connection refused"

/-- A network where DNS resolution fails and SMTP connections fail. -/
def sampleNetDown : Network :=
  { dns := fun _ => none, smtp := fun _ => SmtpOutcome.connectFailed }

/-- A network with one MX host whose server accepts every recipient,
including the randomized catch-all probe. -/
def sampleNetCatchAll : Network :=
  { dns := fun _ => some (["mx1.example.com"], []),
    smtp := fun _ =>
      SmtpOutcome.connected RcptResponse.accepted RcptResponse.accepted }

/-- Claim C1: for the empty input string, `verifyEmail` returns a result with
a non-empty `Error` and `IsValid = false`, and the result is independent of
the `parse` and `verify` operations — neither `ParseAddress` nor `Verify`
(hence no DNS or SMTP work) influences it. -/
theorem verifyEmail_empty_no_network
    (parse parse' : String → Address)
    (verify verify' : String → Except String VerificationResult) :
    (verifyEmail parse verify "").error ≠ "" ∧
    (verifyEmail parse verify "").isValid = false ∧
    verifyEmail parse verify "" = verifyEmail parse' verify' "" := by
  refine ⟨?_, ?_, ?_⟩ <;> simp [verifyEmail]

/-- Claim C8: on every path (empty input, parse failure, `Verify` error,
success) `verifyEmail` returns a result whose `Email` field is exactly the
input string. -/
theorem verifyEmail_preserves_email (parse : String → Address)
    (verify : String → Except String VerificationResult) (email : String) :
    (verifyEmail parse verify email).email = email := by
  unfold verifyEmail
  by_cases h : email = ""
  · simp [h]
  · simp only [h, if_neg, reduceIte]
    by_cases hv : (parse email).valid
    · simp only [hv, Bool.not_true, reduceIte]
      cases hverify : verify email with
      | error e => simp
      | ok v =>
        cases hs : v.smtp <;> simp [hs]
    · simp [hv]

/-- Claim C2: for every non-empty input whose parse yields `valid = false`,
`verifyEmail` returns (totally, by construction) a result with
`IsValid = false` and a non-empty diagnostic `Error`, and the result does not
depend on the `verify` operation — `Verify` is never invoked, so no DNS or
SMTP work is attempted for malformed input. -/
theorem verifyEmail_malformed_no_verify
    (parse : String → Address)
    (verify verify' : String → Except String VerificationResult)
    (email : String)
    (h0 : email ≠ "") (h1 : (parse email).valid = false) :
    (verifyEmail parse verify email).isValid = false ∧
    (verifyEmail parse verify email).error ≠ "" ∧
    verifyEmail parse verify email = verifyEmail parse verify' email := by
  refine ⟨?_, ?_, ?_⟩ <;> simp [verifyEmail, h0, h1]

/-- Concrete witness for claim C2 at input "invalid-email" with the
spec-modelled parser and two different verify oracles. -/
theorem verifyEmail_malformed_no_verify_witness :
    ("invalid-email" ≠ "" ∧ (ParseAddress "invalid-email").valid = false) ∧
    ((verifyEmail ParseAddress sampleVerifyOk "invalid-email").isValid = false ∧
     (verifyEmail ParseAddress sampleVerifyOk "invalid-email").error ≠ "" ∧
     verifyEmail ParseAddress sampleVerifyOk "invalid-email" =
       verifyEmail ParseAddress sampleVerifyErr "invalid-email") :=
  ⟨⟨by decide, by decide⟩,
   verifyEmail_malformed_no_verify ParseAddress sampleVerifyOk sampleVerifyErr
     "invalid-email" (by decide) (by decide)⟩

/-- Claim C3: when parsing succeeds and `Verify` returns without error,
`verifyEmail` copies the verification fields verbatim: `Reachable`,
`Disposable`, `RoleAccount`, `Free`, `HasMxRecords` and `Suggestion` equal
the library's values, `SMTPDetails` is present iff the library's SMTP
details are present and then its five fields are equal (the `Option.map
toSMTPInfo` equation), and `Error` stays empty. -/
theorem verifyEmail_success_copies_fields
    (parse : String → Address)
    (verify : String → Except String VerificationResult)
    (email : String) (v : VerificationResult)
    (h0 : email ≠ "") (h1 : (parse email).valid = true)
    (h2 : verify email = Except.ok v) :
    (verifyEmail parse verify email).reachable = v.reachable ∧
    (verifyEmail parse verify email).disposable = v.disposable ∧
    (verifyEmail parse verify email).roleAccount = v.roleAccount ∧
    (verifyEmail parse verify email).free = v.free ∧
    (verifyEmail parse verify email).hasMxRecords = v.hasMxRecords ∧
    (verifyEmail parse verify email).suggestion = v.suggestion ∧
    (verifyEmail parse verify email).error = "" ∧
    ((verifyEmail parse verify email).smtpDetails.isSome ↔ v.smtp.isSome) ∧
    (verifyEmail parse verify email).smtpDetails = v.smtp.map toSMTPInfo := by
  cases hs : v.smtp with
  | none =>
      refine ⟨?_, ?_, ?_, ?_, ?_, ?_, ?_, ?_, ?_⟩ <;>
        simp [verifyEmail, h0, h1, h2, hs]
  | some s =>
      refine ⟨?_, ?_, ?_, ?_, ?_, ?_, ?_, ?_, ?_⟩ <;>
        simp [verifyEmail, h0, h1, h2, hs, toSMTPInfo]

/-- Concrete witness for claim C3 at input "user@example.com" with the
spec-modelled parser and an always-succeeding verify oracle. -/
theorem verifyEmail_success_copies_fields_witness :
    ("user@example.com" ≠ "" ∧
     (ParseAddress "user@example.com").valid = true ∧
     sampleVerifyOk "user@example.com" = Except.ok sampleResult) ∧
    ((verifyEmail ParseAddress sampleVerifyOk "user@example.com").reachable
        = sampleResult.reachable ∧
     (verifyEmail ParseAddress sampleVerifyOk "user@example.com").disposable
        = sampleResult.disposable ∧
     (verifyEmail ParseAddress sampleVerifyOk "user@example.com").roleAccount
        = sampleResult.roleAccount ∧
     (verifyEmail ParseAddress sampleVerifyOk "user@example.com").free
        = sampleResult.free ∧
     (verifyEmail ParseAddress sampleVerifyOk "user@example.com").hasMxRecords
        = sampleResult.hasMxRecords ∧
     (verifyEmail ParseAddress sampleVerifyOk "user@example.com").suggestion
        = sampleResult.suggestion ∧
     (verifyEmail ParseAddress sampleVerifyOk "user@example.com").error = "" ∧
     ((verifyEmail ParseAddress sampleVerifyOk "user@example.com").smtpDetails.isSome
        ↔ sampleResult.smtp.isSome) ∧
     (verifyEmail ParseAddress sampleVerifyOk "user@example.com").smtpDetails
        = sampleResult.smtp.map toSMTPInfo) :=
  ⟨⟨by decide, by decide, rfl⟩,
   verifyEmail_success_copies_fields ParseAddress sampleVerifyOk
     "user@example.com" sampleResult (by decide) (by decide) rfl⟩

/-- Claim C9: when parsing succeeds but `Verify` returns an error,
`verifyEmail` returns with `Error` prefixed "Verification failed:" and every
verification field at its Go zero value: empty `Reachable`, false booleans,
empty `Suggestion`, and no `SMTPDetails` — no partial verification data. -/
theorem verifyEmail_error_zero_fields
    (parse : String → Address)
    (verify : String → Except String VerificationResult)
    (email e : String)
    (h0 : email ≠ "") (h1 : (parse email).valid = true)
    (h2 : verify email = Except.error e) :
    (verifyEmail parse verify email).error = "Verification failed: " ++ e ∧
    (verifyEmail parse verify email).reachable = "" ∧
    (verifyEmail parse verify email).disposable = false ∧
    (verifyEmail parse verify email).roleAccount = false ∧
    (verifyEmail parse verify email).free = false ∧
    (verifyEmail parse verify email).hasMxRecords = false ∧
    (verifyEmail parse verify email).suggestion = "" ∧
    (verifyEmail parse verify email).smtpDetails = none := by
  refine ⟨?_, ?_, ?_, ?_, ?_, ?_, ?_, ?_⟩ <;>
    simp [verifyEmail, h0, h1, h2]

/-- Concrete witness for claim C9 at input "user@example.com" with the
spec-modelled parser and an always-failing verify oracle. -/
theorem verifyEmail_error_zero_fields_witness :
    ("user@example.com" ≠ "" ∧
     (ParseAddress "user@example.com").valid = true ∧
     sampleVerifyErr "user@example.com" =
       Except.error "dial tcp 93.184.216.34:25: connect: connection refused") ∧
    ((verifyEmail ParseAddress sampleVerifyErr "user@example.com").error =
       "Verification failed: " ++
         "dial tcp 93.184.216.34:25: connect: connection refused" ∧
     (verifyEmail ParseAddress sampleVerifyErr "user@example.com").reachable = "" ∧
     (verifyEmail ParseAddress sampleVerifyErr "user@example.com").disposable = false ∧
     (verifyEmail ParseAddress sampleVerifyErr "user@example.com").roleAccount = false ∧
     (verifyEmail ParseAddress sampleVerifyErr "user@example.com").free = false ∧
     (verifyEmail ParseAddress sampleVerifyErr "user@example.com").hasMxRecords = false ∧
     (verifyEmail ParseAddress sampleVerifyErr "user@example.com").suggestion = "" ∧
     (verifyEmail ParseAddress sampleVerifyErr "user@example.com").smtpDetails = none) :=
  ⟨⟨by decide, by decide, rfl⟩,
   verifyEmail_error_zero_fields ParseAddress sampleVerifyErr
     "user@example.com" "dial tcp 93.184.216.34:25: connect: connection refused"
     (by decide) (by decide) rfl⟩

/-- Claim C10: on the invalid-syntax path, `verifyEmail` copies `Username`
and `Domain` from the parse result before checking validity: for every
non-empty input rejected by the parser, the result has `IsValid = false` and
`Error` set, yet carries whatever `Username` and `Domain` the parser
produced. -/
theorem verifyEmail_invalid_keeps_parts
    (parse : String → Address)
    (verify : String → Except String VerificationResult)
    (email : String)
    (h0 : email ≠ "") (h1 : (parse email).valid = false) :
    (verifyEmail parse verify email).isValid = false ∧
    (verifyEmail parse verify email).error = "Invalid email address format" ∧
    (verifyEmail parse verify email).username = (parse email).username ∧
    (verifyEmail parse verify email).domain = (parse email).domain := by
  refine ⟨?_, ?_, ?_, ?_⟩ <;> simp [verifyEmail, h0, h1]

/-- Concrete witness for claim C10 at input "user@.com", where the
spec-modelled parser rejects the address yet produces the non-empty parts
"user" and ".com", which the result still carries. -/
theorem verifyEmail_invalid_keeps_parts_witness :
    ("user@.com" ≠ "" ∧ (ParseAddress "user@.com").valid = false ∧
     (ParseAddress "user@.com").username = "user" ∧
     (ParseAddress "user@.com").domain = ".com") ∧
    ((verifyEmail ParseAddress sampleVerifyOk "user@.com").isValid = false ∧
     (verifyEmail ParseAddress sampleVerifyOk "user@.com").error =
       "Invalid email address format" ∧
     (verifyEmail ParseAddress sampleVerifyOk "user@.com").username =
       (ParseAddress "user@.com").username ∧
     (verifyEmail ParseAddress sampleVerifyOk "user@.com").domain =
       (ParseAddress "user@.com").domain) :=
  ⟨⟨by decide, by decide, by decide, by decide⟩,
   verifyEmail_invalid_keeps_parts ParseAddress sampleVerifyOk "user@.com"
     (by decide) (by decide)⟩

/-- When the separator character does not occur in the list, `splitLastAt`
finds no split. -/
theorem splitLastAt_eq_none_of_not_mem (sep : Char) (l : List Char)
    (h : sep ∉ l) : splitLastAt sep l = none := by
  induction l with
  | nil => rfl
  | cons c cs ih =>
      have hc : ¬(c = sep) := fun hc => h (hc ▸ List.mem_cons_self c cs)
      have hcs : sep ∉ cs := fun hm => h (List.mem_cons_of_mem c hm)
      simp [splitLastAt, ih hcs, hc]

/-- Claim C4: `ParseAddress` is total by construction (it is a plain Lean
function, defined for every input string), and for every string without an
"@" or whose parsed local part or domain is empty, the returned address has
`valid = false`. -/
theorem parseAddress_invalid (s : String)
    (h : '@' ∉ s.data ∨ (ParseAddress s).username = "" ∨
         (ParseAddress s).domain = "") :
    (ParseAddress s).valid = false := by
  cases hsp : splitLastAt '@' s.data with
  | none => simp [ParseAddress, hsp]
  | some pr =>
      obtain ⟨l, d⟩ := pr
      rcases h with h | h | h
      · rw [splitLastAt_eq_none_of_not_mem '@' s.data h] at hsp
        cases hsp
      · rw [ParseAddress, hsp] at h ⊢
        have hl : l = [] := congrArg String.data h
        simp [hl, validLocal]
      · rw [ParseAddress, hsp] at h ⊢
        have hd : d = [] := congrArg String.data h
        simp [hd, validDomain]

/-- Concrete witness for claim C4 at input "@example.com", whose local part
is empty. -/
theorem parseAddress_invalid_witness :
    ((ParseAddress "@example.com").username = "") ∧
    (ParseAddress "@example.com").valid = false :=
  ⟨by decide,
   parseAddress_invalid "@example.com" (Or.inr (Or.inl (by decide)))⟩

/-- When DNS yields no MX and no A/AAAA records (including resolution
failure), the spec-modelled pipeline reports no MX records and unknown
reachability. -/
theorem verifyCore_dns_empty (net : Network) (p : Address)
    (hd : (net.dns p.domain).getD ([], []) = ([], [])) :
    (verifyCore net p).reachable = "unknown" ∧
    (verifyCore net p).hasMxRecords = false := by
  constructor <;> simp [verifyCore, hd]

/-- When the SMTP connection fails, the spec-modelled pipeline reports
unknown reachability regardless of the DNS answer. -/
theorem verifyCore_connect_failed (net : Network) (p : Address)
    (hs : net.smtp p.domain = SmtpOutcome.connectFailed) :
    (verifyCore net p).reachable = "unknown" := by
  simp only [verifyCore, hs]
  split <;> rfl

/-- When DNS yields at least one record and the mail exchanger also accepts
the second, randomized-local-part probe, the spec-modelled pipeline reports
unknown reachability and SMTP details flagged as catch-all. -/
theorem verifyCore_catch_all (net : Network) (p : Address)
    (mx addrs : List String) (firstProbe : RcptResponse)
    (hd : net.dns p.domain = some (mx, addrs))
    (hne : (mx.isEmpty && addrs.isEmpty) = false)
    (hs : net.smtp p.domain =
      SmtpOutcome.connected firstProbe RcptResponse.accepted) :
    (verifyCore net p).reachable = "unknown" ∧
    (verifyCore net p).smtp.map SMTPDetails.catchAll = some true := by
  constructor <;> simp [verifyCore, hd, hne, hs]

/-- Claim C5: for every syntactically valid input, `Verify` returns without
error regardless of the network environment; ordinary network
unreachability — DNS resolution failure or SMTP connection failure — is
folded into `reachable = "unknown"` rather than producing an error. -/
theorem verify_error_only_on_parse_failure (net : Network) (raw : String)
    (h : (ParseAddress raw).valid = true) :
    ∃ v, Verify net raw = Except.ok v ∧
      (net.dns (ParseAddress raw).domain = none → v.reachable = "unknown") ∧
      (net.smtp (ParseAddress raw).domain = SmtpOutcome.connectFailed →
        v.reachable = "unknown") := by
  refine ⟨verifyCore net (ParseAddress raw), ?_, ?_, ?_⟩
  · simp [Verify, h]
  · intro hn
    exact (verifyCore_dns_empty net (ParseAddress raw) (by rw [hn]; rfl)).1
  · intro hf
    exact verifyCore_connect_failed net (ParseAddress raw) hf

/-- Concrete witness for claim C5 at input "user@example.com" against a
network where DNS resolution and SMTP connections both fail. -/
theorem verify_error_only_on_parse_failure_witness :
    ((ParseAddress "user@example.com").valid = true) ∧
    (∃ v, Verify sampleNetDown "user@example.com" = Except.ok v ∧
      (sampleNetDown.dns (ParseAddress "user@example.com").domain = none →
        v.reachable = "unknown") ∧
      (sampleNetDown.smtp (ParseAddress "user@example.com").domain =
          SmtpOutcome.connectFailed → v.reachable = "unknown")) :=
  ⟨by decide,
   verify_error_only_on_parse_failure sampleNetDown "user@example.com"
     (by decide)⟩

/-- Claim C6: for every syntactically valid address whose domain has no MX
record and no A/AAAA record (including DNS resolution failure), the
verification result has `hasMxRecords = false` and `reachable` is never
"yes". -/
theorem verify_no_dns_records (net : Network) (raw : String)
    (hp : (ParseAddress raw).valid = true)
    (hd : (net.dns (ParseAddress raw).domain).getD ([], []) = ([], [])) :
    ∃ v, Verify net raw = Except.ok v ∧ v.hasMxRecords = false ∧
      v.reachable ≠ "yes" := by
  refine ⟨verifyCore net (ParseAddress raw), ?_, ?_, ?_⟩
  · simp [Verify, hp]
  · exact (verifyCore_dns_empty net (ParseAddress raw) hd).2
  · rw [(verifyCore_dns_empty net (ParseAddress raw) hd).1]
    decide

/-- Concrete witness for claim C6 at input "user@example.com" against a
network whose DNS resolution fails. -/
theorem verify_no_dns_records_witness :
    ((ParseAddress "user@example.com").valid = true ∧
     (sampleNetDown.dns (ParseAddress "user@example.com").domain).getD ([], [])
       = ([], [])) ∧
    (∃ v, Verify sampleNetDown "user@example.com" = Except.ok v ∧
      v.hasMxRecords = false ∧ v.reachable ≠ "yes") :=
  ⟨⟨by decide, by decide⟩,
   verify_no_dns_records sampleNetDown "user@example.com"
     (by decide) (by decide)⟩

/-- Claim C7: for every catch-all domain — one whose mail exchanger also
accepts the second, randomized-local-part probe — the verification result
carries SMTP details with `catchAll = true` and has `reachable = "unknown"`,
never "yes". -/
theorem verify_catch_all_unknown (net : Network) (raw : String)
    (mx addrs : List String) (firstProbe : RcptResponse)
    (hp : (ParseAddress raw).valid = true)
    (hd : net.dns (ParseAddress raw).domain = some (mx, addrs))
    (hne : (mx.isEmpty && addrs.isEmpty) = false)
    (hs : net.smtp (ParseAddress raw).domain =
      SmtpOutcome.connected firstProbe RcptResponse.accepted) :
    ∃ v s, Verify net raw = Except.ok v ∧ v.smtp = some s ∧
      s.catchAll = true ∧ v.reachable = "unknown" ∧ v.reachable ≠ "yes" := by
  obtain ⟨h1, h2⟩ :=
    verifyCore_catch_all net (ParseAddress raw) mx addrs firstProbe hd hne hs
  rw [Option.map_eq_some'] at h2
  obtain ⟨s, hsome, hca⟩ := h2
  refine ⟨verifyCore net (ParseAddress raw), s, ?_, hsome, hca, h1, ?_⟩
  · simp [Verify, hp]
  · rw [h1]
    decide

/-- Concrete witness for claim C7 at input "user@example.com" against a
network with one MX host accepting both the primary and the randomized
probe. -/
theorem verify_catch_all_unknown_witness :
    ((ParseAddress "user@example.com").valid = true ∧
     sampleNetCatchAll.dns (ParseAddress "user@example.com").domain =
       some (["mx1.example.com"], []) ∧
     ((["mx1.example.com"] : List String).isEmpty &&
       ([] : List String).isEmpty) = false ∧
     sampleNetCatchAll.smtp (ParseAddress "user@example.com").domain =
       SmtpOutcome.connected RcptResponse.accepted RcptResponse.accepted) ∧
    (∃ v s, Verify sampleNetCatchAll "user@example.com" = Except.ok v ∧
      v.smtp = some s ∧ s.catchAll = true ∧ v.reachable = "unknown" ∧
      v.reachable ≠ "yes") :=
  ⟨⟨by decide, by decide, by decide, by decide⟩,
   verify_catch_all_unknown sampleNetCatchAll "user@example.com"
     ["mx1.example.com"] [] RcptResponse.accepted
     (by decide) (by decide) (by decide) (by decide)⟩
